import Mathlib

/-!
Verification development for the MXNet.cpp NDArray binding layer
(src/include/ndarray.h): a reference-counted, device-aware tensor handle
over an asynchronous external engine.

The embedding has two layers.

Ownership layer (translated from the source): `NDBlob` stores the opaque
engine handle and its destructor calls `MXNDArrayFree` unconditionally
(ndarray.h lines 54-77); `NDArray` holds a `std::shared_ptr<NDBlob>`
(line 291), so buffer lifetime follows the standard shared-pointer
use count: destroying a handle decrements the count and, exactly when the
count reaches zero, runs the `NDBlob` destructor.

Buffer-semantics layer: the header declares the methods
(SyncCopyFromCPU, SyncCopyToCPU, Slice, WaitToRead, WaitToWrite, WaitAll,
operators, constructors) but their bodies live outside this repository,
so those operations are modelled from the specification, as recorded in
each definition's doc comment.
-/

/-- Opaque engine handle (`NDArrayHandle`); `none` models the C++ `nullptr`. -/
abbrev NDArrayHandle := Option Nat

/-- Element values held in a buffer. Copies move values verbatim and never
compute on them, so bit patterns are modelled as an opaque decidable type. -/
abbrev Val := Int

/-- Device kinds, from `enum DeviceType` in ndarray.h lines 19-23. -/
inductive DeviceType where
  | kCPU
  | kGPU
  | kCPUPinned
deriving DecidableEq

/-- Device descriptor, from `class Context` in ndarray.h lines 28-49:
a device type and a device id, immutable after construction. -/
structure Context where
  type_ : DeviceType
  id_ : Int
deriving DecidableEq

/-- Accessor `Context::GetDeviceType`, ndarray.h line 40. -/
def Context.GetDeviceType (c : Context) : DeviceType := c.type_

/-- Accessor `Context::GetDeviceId`, ndarray.h line 44. -/
def Context.GetDeviceId (c : Context) : Int := c.id_

/-- Error taxonomy of the specification (section 7). -/
inductive MXError where
  | AllocationError
  | ShapeMismatchError
  | SizeMismatchError
  | RangeError
  | EngineError
deriving DecidableEq

/-- Observable calls issued to the external engine. -/
inductive EngineEv where
  | free (h : NDArrayHandle)
  | waitToWriteEv
  | waitToReadEv
  | copyFromHost (n : Nat)
  | copyToHost (n : Nat)
  | allocEv
deriving DecidableEq

/-- Ownership token for the engine handle, from `struct NDBlob`
(ndarray.h lines 54-77): a single stored `NDArrayHandle`. -/
structure NDBlob where
  handle_ : NDArrayHandle
deriving DecidableEq

/-- Default constructor `NDBlob() : handle_(nullptr)`, ndarray.h line 59. -/
def NDBlob.mkDefault : NDBlob := ⟨none⟩

/-- Destructor `~NDBlob() { MXNDArrayFree(handle_); }`, ndarray.h line 68:
the free call is unconditional, with no null check, so the engine-call
trace of destruction is always exactly one free of the stored handle. -/
def NDBlob.dtor (b : NDBlob) : List EngineEv := [.free b.handle_]

/-- Reference-counting state of the handles sharing engine buffers.
`NDArray` owns its blob through `std::shared_ptr<NDBlob>` (ndarray.h line
291); `useCount b` is the number of live `NDArray` objects whose shared
pointer refers to blob `b`, and `blobHandle b` is the engine handle that
blob stores. -/
structure SPState where
  useCount : Nat → Nat
  blobHandle : Nat → NDArrayHandle

/-- Copy construction or assignment of an `NDArray` sharing blob `b`:
the shared pointer is copied, which increments the use count and issues
no engine call. -/
def SPState.copyHandle (st : SPState) (b : Nat) : SPState :=
  { st with useCount := fun x => if x = b then st.useCount x + 1 else st.useCount x }

/-- Destruction of one `NDArray` whose shared pointer refers to blob `b`:
the `std::shared_ptr<NDBlob>` member is destroyed, decrementing the use
count; exactly when the count reaches zero the `NDBlob` destructor runs,
whose engine-call trace is `NDBlob.dtor` (ndarray.h line 68). -/
def SPState.destroyHandle (st : SPState) (b : Nat) : SPState × List EngineEv :=
  if st.useCount b ≤ 1 then
    ({ st with useCount := fun x => if x = b then 0 else st.useCount x },
      NDBlob.dtor ⟨st.blobHandle b⟩)
  else
    ({ st with useCount := fun x => if x = b then st.useCount x - 1 else st.useCount x },
      [])

/-- C1: destroying the last Handle referencing a Buffer (use count 1)
issues exactly one Free call on the blob's opaque engine handle, and
destroying a Handle of a Buffer still referenced elsewhere (use count
above 1) issues no Free call. -/
theorem destroyHandle_free_iff_last (st : SPState) (b : Nat) :
    (st.useCount b = 1 →
      (st.destroyHandle b).2 = [EngineEv.free (st.blobHandle b)] ∧
      (st.destroyHandle b).1.useCount b = 0) ∧
    (1 < st.useCount b → (st.destroyHandle b).2 = []) := by
  constructor
  · intro h1
    simp [SPState.destroyHandle, NDBlob.dtor, h1]
  · intro h2
    simp [SPState.destroyHandle, Nat.not_le.mpr h2]

/-- Witness for C1 at concrete states: a sole owner of blob 0 frees engine
handle 5 exactly once, and a twice-shared blob 0 is not freed. -/
theorem destroyHandle_free_iff_last_witness :
    ((SPState.mk (fun _ => 1) (fun _ => some 5)).destroyHandle 0).2
        = [EngineEv.free (some 5)] ∧
    ((SPState.mk (fun _ => 2) (fun _ => some 5)).destroyHandle 0).2 = [] :=
  ⟨((destroyHandle_free_iff_last (SPState.mk (fun _ => 1) (fun _ => some 5)) 0).1 rfl).1,
    (destroyHandle_free_iff_last (SPState.mk (fun _ => 2) (fun _ => some 5)) 0).2
      (by decide)⟩

/-- C10: the release call in the `NDBlob` destructor is unconditional:
for every stored handle the destruction trace is exactly one free of that
handle, and in particular destroying a default-constructed `NDBlob`
(handle null) issues `MXNDArrayFree` with the null handle. -/
theorem ndblob_dtor_unconditional_free :
    (∀ h : NDArrayHandle, NDBlob.dtor ⟨h⟩ = [EngineEv.free h]) ∧
    NDBlob.dtor NDBlob.mkDefault = [EngineEv.free none] :=
  ⟨fun _ => rfl, rfl⟩

/-- Allocation state of a Handle's storage, from the specification
(section 4.3): a shape-plus-context construction may defer physical
allocation; construction from host data always allocates. -/
inductive AllocState where
  | deferred
  | allocated
deriving DecidableEq

/-- Observable state of the Buffer an `NDArray` handle references: its
shape (element count is the product of the dimensions, spec section 3),
its element data, its device, its allocation state, and the engine's
pending-operation metadata for it (spec sections 4.6 and 5). The
reference-counting that shares one such Buffer among several handles is
modelled separately by `SPState`. -/
structure NDArray where
  shape : List Nat
  data : List Val
  ctx : Context
  alloc : AllocState
  pendingReads : Nat
  pendingWrites : Nat
deriving DecidableEq

/-- Total element count of a Handle: the product of its dimensions
(spec section 3). -/
def NDArray.elemCount (a : NDArray) : Nat := a.shape.prod

/-- Modelled from the spec: `NDArray::WaitToRead` (body outside this
repository) blocks until every pending write against this Buffer has
completed; afterwards no write is pending. -/
def NDArray.WaitToRead (a : NDArray) : NDArray :=
  { a with pendingWrites := 0 }

/-- Modelled from the spec: `NDArray::WaitToWrite` (body outside this
repository) blocks until every pending read and write against this
Buffer has completed; afterwards nothing is pending. -/
def NDArray.WaitToWrite (a : NDArray) : NDArray :=
  { a with pendingReads := 0, pendingWrites := 0 }

/-- Modelled from the spec: `NDArray::SyncCopyFromCPU(data, size)` (body
outside this repository) first takes the write barrier `WaitToWrite`,
then synchronously copies `size` elements of host data into the Buffer;
it fails with `SizeMismatchError` when `size` differs from the Buffer's
element count. The first component is the trace of engine calls in
order. -/
def NDArray.SyncCopyFromCPU (a : NDArray) (data : List Val) (size : Nat) :
    List EngineEv × Except MXError NDArray :=
  let a1 := a.WaitToWrite
  if size = a.elemCount then
    ([.waitToWriteEv, .copyFromHost size], .ok { a1 with data := data.take size })
  else
    ([.waitToWriteEv], .error .SizeMismatchError)

/-- Modelled from the spec: `NDArray::SyncCopyToCPU(data, size)` (body
outside this repository) first takes the read barrier `WaitToRead`, then
synchronously copies `size` elements out to host memory; same
size-mismatch contract. The returned list is the host data written. -/
def NDArray.SyncCopyToCPU (a : NDArray) (size : Nat) :
    List EngineEv × Except MXError (List Val) :=
  if size = a.elemCount then
    ([.waitToReadEv, .copyToHost size], .ok ((a.WaitToRead).data.take size))
  else
    ([.waitToReadEv], .error .SizeMismatchError)

/-- Composition of a host-to-device copy and a device-to-host copy of the
same size, for the round-trip law. -/
def NDArray.roundTrip (a : NDArray) (data : List Val) (size : Nat) :
    Except MXError (List Val) :=
  match (a.SyncCopyFromCPU data size).2 with
  | .ok a1 => (a1.SyncCopyToCPU size).2
  | .error e => .error e

/-- C2: `SyncCopyFromCPU` always performs the write barrier first (the
trace begins with the `WaitToWrite` engine call), copies the `size` host
elements into the Buffer when `size` equals the element count (barrier
call strictly before the copy call), and fails with `SizeMismatchError`
otherwise; symmetrically `SyncCopyToCPU` performs the read barrier first,
copies out on matching size, and fails with `SizeMismatchError`
otherwise. -/
theorem syncCopy_barrier_and_size_contract (a : NDArray) (data : List Val)
    (size : Nat) :
    ((a.SyncCopyFromCPU data size).1.head? = some EngineEv.waitToWriteEv) ∧
    (size = a.elemCount →
      a.SyncCopyFromCPU data size =
        ([EngineEv.waitToWriteEv, EngineEv.copyFromHost size],
          Except.ok { a.WaitToWrite with data := data.take size })) ∧
    (size ≠ a.elemCount →
      (a.SyncCopyFromCPU data size).2 = Except.error MXError.SizeMismatchError) ∧
    ((a.SyncCopyToCPU size).1.head? = some EngineEv.waitToReadEv) ∧
    (size = a.elemCount →
      a.SyncCopyToCPU size =
        ([EngineEv.waitToReadEv, EngineEv.copyToHost size],
          Except.ok ((a.WaitToRead).data.take size))) ∧
    (size ≠ a.elemCount →
      (a.SyncCopyToCPU size).2 = Except.error MXError.SizeMismatchError) := by
  by_cases h : size = a.elemCount <;>
    simp [NDArray.SyncCopyFromCPU, NDArray.SyncCopyToCPU, h]

/-- Witness for C2 at a concrete Buffer of shape [2]: the matching-size
copy succeeds after its barrier and the mismatching-size copies fail. -/
theorem syncCopy_barrier_and_size_contract_witness :
    ((NDArray.mk [2] [0, 0] ⟨.kCPU, 0⟩ .allocated 0 3).SyncCopyFromCPU [7, 9] 2 =
      ([EngineEv.waitToWriteEv, EngineEv.copyFromHost 2],
        Except.ok (NDArray.mk [2] [7, 9] ⟨.kCPU, 0⟩ .allocated 0 0))) ∧
    (((NDArray.mk [2] [0, 0] ⟨.kCPU, 0⟩ .allocated 0 3).SyncCopyFromCPU [7] 1).2 =
      Except.error MXError.SizeMismatchError) := by
  refine ⟨?_, ?_⟩
  · have h := (syncCopy_barrier_and_size_contract
      (NDArray.mk [2] [0, 0] ⟨.kCPU, 0⟩ .allocated 0 3) [7, 9] 2).2.1 (by decide)
    simpa [NDArray.WaitToWrite] using h
  · exact (syncCopy_barrier_and_size_contract
      (NDArray.mk [2] [0, 0] ⟨.kCPU, 0⟩ .allocated 0 3) [7] 1).2.2.1 (by decide)

/-- C3: for a Handle whose storage holds `n` elements and a host array of
`n` elements, `SyncCopyFromCPU` with size `n` followed by `SyncCopyToCPU`
with size `n` reproduces the host array bit for bit. -/
theorem syncCopy_roundTrip (a : NDArray) (data : List Val) (n : Nat)
    (hc : a.elemCount = n) (hd : data.length = n) :
    a.roundTrip data n = Except.ok data := by
  subst hc
  have ht : data.take a.shape.prod = data := by
    have hl : a.shape.prod = data.length := by
      simpa [NDArray.elemCount] using hd.symm
    rw [hl]
    exact List.take_length data
  simp [NDArray.roundTrip, NDArray.SyncCopyFromCPU, NDArray.SyncCopyToCPU,
    NDArray.WaitToWrite, NDArray.WaitToRead, NDArray.elemCount, List.take_take, ht]

/-- Witness for C3: the round trip on a shape-[3] Buffer reproduces the
concrete host array. -/
theorem syncCopy_roundTrip_witness :
    (NDArray.mk [3] [0, 0, 0] ⟨.kCPU, 0⟩ .allocated 1 1).roundTrip [4, 5, 6] 3 =
      Except.ok [4, 5, 6] :=
  syncCopy_roundTrip (NDArray.mk [3] [0, 0, 0] ⟨.kCPU, 0⟩ .allocated 1 1)
    [4, 5, 6] 3 (by decide) (by decide)

/-- Elementwise binary operations exposed as `operator+ - * /` and their
in-place forms `operator+= -= *= /=` on two Handles (ndarray.h lines
117-120 and 161-182). -/
inductive BinOp where
  | add
  | sub
  | mul
  | div
deriving DecidableEq

/-- Machine state for operations involving several Handles: the Buffers
live in a store and Handles designate them by index. -/
structure Machine where
  bufs : List NDArray
deriving DecidableEq

/-- Modelled from the spec: an out-of-place binary elementwise operator
on two Handles (`operator+ - * /`, bodies outside this repository).
The element arithmetic itself is performed by the external engine, so it
is a parameter `f`. When the operand shapes differ the call fails with
`ShapeMismatchError` and the store is untouched; two Handle operands
broadcast only when their shapes agree (the spec defines broadcasting
against scalars only). On success a fresh result Buffer with the resolved
shape is appended, carrying one pending write because the operation is
submitted asynchronously. -/
def Machine.binaryOp (f : BinOp → Val → Val → Val) (op : BinOp) (m : Machine)
    (i j : Nat) : Machine × Except MXError Nat :=
  match m.bufs[i]?, m.bufs[j]? with
  | some a, some b =>
    if a.shape = b.shape then
      let r : NDArray :=
        { shape := a.shape, data := List.zipWith (f op) a.data b.data,
          ctx := a.ctx, alloc := .allocated, pendingReads := 0, pendingWrites := 1 }
      (⟨m.bufs ++ [r]⟩, .ok m.bufs.length)
    else (m, .error .ShapeMismatchError)
  | _, _ => (m, .error .EngineError)

/-- Modelled from the spec: an in-place binary elementwise operator on
two Handles (`operator+= -= *= /=`, bodies outside this repository).
Shape mismatch fails with `ShapeMismatchError` leaving the store
untouched; on success the receiver's Buffer is mutated and gains a
pending write from the asynchronous submission. -/
def Machine.inplaceOp (f : BinOp → Val → Val → Val) (op : BinOp) (m : Machine)
    (i j : Nat) : Machine × Except MXError Unit :=
  match m.bufs[i]?, m.bufs[j]? with
  | some a, some b =>
    if a.shape = b.shape then
      let r : NDArray :=
        { a with data := List.zipWith (f op) a.data b.data,
                 pendingWrites := a.pendingWrites + 1 }
      (⟨m.bufs.set i r⟩, .ok ())
    else (m, .error .ShapeMismatchError)
  | _, _ => (m, .error .EngineError)

/-- C4: for any two Handles whose Buffers have distinct shapes (two
Handle operands are never broadcastable unless their shapes agree), every
binary elementwise operator and every in-place form fails with
`ShapeMismatchError` and returns the machine unchanged, so both operand
Buffers are left unmodified. -/
theorem binaryOp_shape_mismatch_error (f : BinOp → Val → Val → Val)
    (op : BinOp) (m : Machine) (i j : Nat) (a b : NDArray)
    (hi : m.bufs[i]? = some a) (hj : m.bufs[j]? = some b)
    (hne : a.shape ≠ b.shape) :
    Machine.binaryOp f op m i j = (m, Except.error MXError.ShapeMismatchError) ∧
    Machine.inplaceOp f op m i j = (m, Except.error MXError.ShapeMismatchError) := by
  constructor <;> simp [Machine.binaryOp, Machine.inplaceOp, hi, hj, hne]

/-- Witness for C4: on a concrete machine holding Buffers of shapes [2]
and [3], addition out of place and in place both fail with
`ShapeMismatchError` and leave the machine unchanged. -/
theorem binaryOp_shape_mismatch_error_witness :
    Machine.binaryOp (fun _ x y => x + y) BinOp.add
      (Machine.mk [NDArray.mk [2] [1, 1] ⟨.kCPU, 0⟩ .allocated 0 0,
        NDArray.mk [3] [2, 2, 2] ⟨.kCPU, 0⟩ .allocated 0 0]) 0 1 =
      (Machine.mk [NDArray.mk [2] [1, 1] ⟨.kCPU, 0⟩ .allocated 0 0,
        NDArray.mk [3] [2, 2, 2] ⟨.kCPU, 0⟩ .allocated 0 0],
        Except.error MXError.ShapeMismatchError) ∧
    Machine.inplaceOp (fun _ x y => x + y) BinOp.add
      (Machine.mk [NDArray.mk [2] [1, 1] ⟨.kCPU, 0⟩ .allocated 0 0,
        NDArray.mk [3] [2, 2, 2] ⟨.kCPU, 0⟩ .allocated 0 0]) 0 1 =
      (Machine.mk [NDArray.mk [2] [1, 1] ⟨.kCPU, 0⟩ .allocated 0 0,
        NDArray.mk [3] [2, 2, 2] ⟨.kCPU, 0⟩ .allocated 0 0],
        Except.error MXError.ShapeMismatchError) :=
  binaryOp_shape_mismatch_error (fun _ x y => x + y) BinOp.add
    (Machine.mk [NDArray.mk [2] [1, 1] ⟨.kCPU, 0⟩ .allocated 0 0,
      NDArray.mk [3] [2, 2, 2] ⟨.kCPU, 0⟩ .allocated 0 0]) 0 1
    (NDArray.mk [2] [1, 1] ⟨.kCPU, 0⟩ .allocated 0 0)
    (NDArray.mk [3] [2, 2, 2] ⟨.kCPU, 0⟩ .allocated 0 0)
    (by decide) (by decide) (by decide)

/-- Modelled from the spec: the static `NDArray::WaitAll` (body outside
this repository; the `static` qualifier is ndarray.h line 256) blocks
until every pending operation across all Buffers in the process has
completed; its post-state clears the pending metadata of every Buffer in
the store, not merely one. -/
def NDArray.WaitAll (m : Machine) : Machine :=
  ⟨m.bufs.map fun a => { a with pendingReads := 0, pendingWrites := 0 }⟩

/-- Check that a Buffer has no pending operation at all. -/
def NDArray.idle (a : NDArray) : Bool :=
  a.pendingReads == 0 && a.pendingWrites == 0

/-- Check that no Buffer anywhere in the process has a pending
operation. -/
def Machine.allIdle (m : Machine) : Bool := m.bufs.all NDArray.idle

/-- C5: `WaitAll` is process-wide: in its post-state every Buffer in the
process, not merely one particular Handle's Buffer, has zero pending
operations, while the number of Buffers (and each Buffer's shape, data,
device and allocation state) is preserved. -/
theorem waitAll_clears_all_buffers (m : Machine) :
    (NDArray.WaitAll m).allIdle = true ∧
    (NDArray.WaitAll m).bufs.length = m.bufs.length ∧
    (NDArray.WaitAll m).bufs.map NDArray.shape = m.bufs.map NDArray.shape ∧
    (NDArray.WaitAll m).bufs.map NDArray.data = m.bufs.map NDArray.data := by
  refine ⟨?_, by simp [NDArray.WaitAll], ?_, ?_⟩ <;>
    simp [NDArray.WaitAll, Machine.allIdle, NDArray.idle, List.all_eq_true,
      Function.comp]

/-- Modelled from the spec: `NDArray::Slice(i, j)` (body outside this
repository) returns a new Handle over the sub-range `[i, j)` along the
leading dimension; it fails with `RangeError` when `j <= i` or `j`
exceeds the leading dimension size. Row-major layout: one leading-index
step spans the product of the remaining dimensions. -/
def NDArray.sliceResult (a : NDArray) (i j : Nat) (rest : List Nat) : NDArray :=
  { shape := (j - i) :: rest,
    data := (a.data.drop (i * rest.prod)).take ((j - i) * rest.prod),
    ctx := a.ctx, alloc := a.alloc,
    pendingReads := a.pendingReads, pendingWrites := a.pendingWrites }

/-- Modelled from the spec: `NDArray::Slice(i, j)` dispatches on the
shape: no leading dimension or invalid bounds give `RangeError`,
otherwise the sub-range Handle `sliceResult` is returned. -/
def NDArray.Slice (a : NDArray) (i j : Nat) : Except MXError NDArray :=
  match a.shape with
  | [] => .error .RangeError
  | d :: rest =>
    if j ≤ i ∨ d < j then .error .RangeError
    else .ok (a.sliceResult i j rest)

/-- C6: for a Handle with leading dimension `d`, `Slice i j` fails with
`RangeError` exactly when `j ≤ i` or `j` exceeds `d`; otherwise it
returns a new Handle over the sub-range `[i, j)` along the leading
dimension, with leading dimension size `j - i`, the remaining dimensions
unchanged, and the corresponding row-major data range. -/
theorem slice_range_contract (a : NDArray) (d : Nat) (rest : List Nat)
    (i j : Nat) (hshape : a.shape = d :: rest) :
    ((j ≤ i ∨ d < j) → a.Slice i j = Except.error MXError.RangeError) ∧
    (i < j → j ≤ d →
      a.Slice i j = Except.ok (a.sliceResult i j rest) ∧
      (a.sliceResult i j rest).shape = (j - i) :: rest ∧
      (a.sliceResult i j rest).data =
        (a.data.drop (i * rest.prod)).take ((j - i) * rest.prod)) := by
  constructor
  · intro hbad
    rcases hbad with hbad | hbad <;>
      simp [NDArray.Slice, hshape, hbad]
  · intro hij hjd
    refine ⟨?_, rfl, rfl⟩
    have h1 : ¬ j ≤ i := by omega
    have h2 : ¬ d < j := by omega
    simp [NDArray.Slice, hshape, h1, h2]

/-- Witness for C6 on a concrete shape-[3, 2] Handle: the out-of-range
calls fail with `RangeError` and a valid call slices rows [1, 3). -/
theorem slice_range_contract_witness :
    ((NDArray.mk [3, 2] [1, 2, 3, 4, 5, 6] ⟨.kCPU, 0⟩ .allocated 0 0).Slice 2 2 =
      Except.error MXError.RangeError) ∧
    ((NDArray.mk [3, 2] [1, 2, 3, 4, 5, 6] ⟨.kCPU, 0⟩ .allocated 0 0).Slice 1 3 =
      Except.ok (NDArray.mk [2, 2] [3, 4, 5, 6] ⟨.kCPU, 0⟩ .allocated 0 0)) := by
  have h := slice_range_contract
    (NDArray.mk [3, 2] [1, 2, 3, 4, 5, 6] ⟨.kCPU, 0⟩ .allocated 0 0) 3 [2] 2 2 rfl
  have h13 := slice_range_contract
    (NDArray.mk [3, 2] [1, 2, 3, 4, 5, 6] ⟨.kCPU, 0⟩ .allocated 0 0) 3 [2] 1 3 rfl
  refine ⟨h.1 (Or.inl (by decide)), ?_⟩
  have h2 := (h13.2 (by decide) (by decide)).1
  rw [h2]
  rfl

/-- Concrete Handle with leading dimension of size zero, on which the
full-range slice law fails. -/
def zeroDimArray : NDArray :=
  { shape := [0], data := [], ctx := ⟨.kCPU, 0⟩, alloc := .allocated,
    pendingReads := 0, pendingWrites := 0 }

/-- C7 counterexample: on a Handle whose leading dimension has size
`n = 0`, the full-range slice `Slice 0 n` does not return a structurally
equal Handle — it fails with `RangeError`, because `Slice` rejects every
call with `end ≤ begin` (spec section 4.5), including `Slice 0 0`. -/
theorem slice_full_range_zero_dim_cex :
    zeroDimArray.shape = [0] ∧
    zeroDimArray.Slice 0 0 = Except.error MXError.RangeError := by
  constructor
  · rfl
  · simp [zeroDimArray, NDArray.Slice]

/-- C7 (amended to positive leading dimension): for every Handle whose
leading dimension has size `n > 0` and whose data fills its element
count, `Slice 0 n` returns a Handle structurally equal to the original:
same shape and same element data. -/
theorem slice_full_range_identity (a : NDArray) (n : Nat) (rest : List Nat)
    (hshape : a.shape = n :: rest) (hn : 0 < n)
    (hlen : a.data.length = a.elemCount) :
    ∃ r : NDArray, a.Slice 0 n = Except.ok r ∧
      r.shape = a.shape ∧ r.data = a.data := by
  have h1 : ¬ n ≤ 0 := by omega
  have h2 : ¬ n < n := by omega
  have hs : a.Slice 0 n = Except.ok (a.sliceResult 0 n rest) := by
    simp [NDArray.Slice, hshape, h1, h2]
  refine ⟨a.sliceResult 0 n rest, hs, ?_, ?_⟩
  · simp [NDArray.sliceResult, hshape]
  · have hl : a.data.length = n * rest.prod := by
      simpa [NDArray.elemCount, hshape] using hlen
    simp [NDArray.sliceResult, ← hl, List.take_length]

/-- Witness for C7 (amended): the full-range slice of a concrete
shape-[2, 2] Handle returns its shape and data unchanged. -/
theorem slice_full_range_identity_witness :
    ∃ r : NDArray,
      (NDArray.mk [2, 2] [1, 2, 3, 4] ⟨.kCPU, 0⟩ .allocated 0 0).Slice 0 2 =
        Except.ok r ∧
      r.shape = (NDArray.mk [2, 2] [1, 2, 3, 4] ⟨.kCPU, 0⟩ .allocated 0 0).shape ∧
      r.data = (NDArray.mk [2, 2] [1, 2, 3, 4] ⟨.kCPU, 0⟩ .allocated 0 0).data :=
  slice_full_range_identity
    (NDArray.mk [2, 2] [1, 2, 3, 4] ⟨.kCPU, 0⟩ .allocated 0 0) 2 [2]
    rfl (by decide) (by decide)

/-- Modelled from the spec: the constructor
`NDArray(const mx_float *data, size_t size)` (declared ndarray.h line
109, body outside this repository) always allocates storage sized to the
data — allocation is never deferred — then performs a synchronous
host-to-device copy of `size` elements, and the resulting Handle's
device defaults to CPU. The trace records the allocation call followed
by the copy. -/
def NDArray.ofData (data : List Val) (size : Nat) : List EngineEv × NDArray :=
  ([.allocEv, .copyFromHost size],
    { shape := [size], data := data.take size, ctx := ⟨.kCPU, 0⟩,
      alloc := .allocated, pendingReads := 0, pendingWrites := 0 })

/-- Modelled from the spec: the constructor
`NDArray(const std::vector<mx_float> &data)` (declared ndarray.h line
110, body outside this repository): same contract as `ofData` with the
element count inferred from the collection size. -/
def NDArray.ofVector (data : List Val) : List EngineEv × NDArray :=
  NDArray.ofData data data.length

/-- C8: constructing a Handle from raw host data plus an element count
allocates storage sized to the data (never deferred: the allocation
state is `allocated` and the allocation call precedes the copy call in
the trace), performs a synchronous host-to-device copy (no write is
left pending), and the device defaults to CPU; the collection overload
has the same contract with the count inferred from the collection
length. -/
theorem ofData_allocates_and_copies (data : List Val) (size : Nat) :
    (NDArray.ofData data size).2.alloc = AllocState.allocated ∧
    (NDArray.ofData data size).2.ctx.GetDeviceType = DeviceType.kCPU ∧
    (NDArray.ofData data size).2.shape = [size] ∧
    (NDArray.ofData data size).2.data = data.take size ∧
    (NDArray.ofData data size).2.pendingWrites = 0 ∧
    (NDArray.ofData data size).1 = [EngineEv.allocEv, EngineEv.copyFromHost size] ∧
    NDArray.ofVector data = NDArray.ofData data data.length :=
  ⟨rfl, rfl, rfl, rfl, rfl, rfl, rfl⟩

/-- Default value of the deferred-allocation flag in the shape-plus-
context constructors: `bool delay_alloc = true` in ndarray.h lines 99
and 107. -/
def delay_alloc_default : Bool := true

/-- Modelled from the spec: the shape-plus-context constructors
`NDArray(const std::vector<mx_uint>&, const Context&, bool)` and
`NDArray(const Shape&, const Context&, bool)` (declared ndarray.h lines
98-107, bodies outside this repository). With the flag set the engine
registers shape and device but defers physical storage; with the flag
clear, storage sized to the shape is reserved at construction. -/
def NDArray.ofShapeCtx (shape : List Nat) (c : Context) (d : Bool) : NDArray :=
  { shape := shape,
    data := if d then [] else List.replicate shape.prod 0,
    ctx := c,
    alloc := if d then .deferred else .allocated,
    pendingReads := 0, pendingWrites := 0 }

/-- Call of the `std::vector<mx_uint>` shape constructor with the
`delay_alloc` argument omitted, so the default applies. -/
def NDArray.ofShapeCtxDefault (shape : List Nat) (c : Context) : NDArray :=
  NDArray.ofShapeCtx shape c delay_alloc_default

/-- Call of the `Shape` overload with the `delay_alloc` argument
omitted; the `Shape` class carries the same dimension vector, so the
overload shares the model of the construction. -/
def NDArray.ofShapeClsDefault (shape : List Nat) (c : Context) : NDArray :=
  NDArray.ofShapeCtx shape c delay_alloc_default

/-- C9: in the shape-plus-context constructors the deferred-allocation
flag defaults to true: both overloads called without the flag behave as
if called with `true` and produce a Handle in the deferred (lazy)
allocation state, not an immediately allocated one. -/
theorem ofShapeCtx_default_deferred (shape : List Nat) (c : Context) :
    delay_alloc_default = true ∧
    NDArray.ofShapeCtxDefault shape c = NDArray.ofShapeCtx shape c true ∧
    NDArray.ofShapeClsDefault shape c = NDArray.ofShapeCtx shape c true ∧
    (NDArray.ofShapeCtxDefault shape c).alloc = AllocState.deferred ∧
    (NDArray.ofShapeClsDefault shape c).alloc = AllocState.deferred :=
  ⟨rfl, rfl, rfl, rfl, rfl⟩
